import Mathlib

/-!
Shallow embedding of the authentication/session core of the magic_tales
backend (FastAPI + SQLAlchemy), covering:

* src/db.py                              -- transaction_context
* src/services/user_service.py           -- check_validation_code
* src/services/session_service.py        -- JWT issue/refresh (symbolic crypto)
* src/controllers/session_controller.py  -- login, register, register_validation,
                                            recover_password_validation
* src/controllers/user_controller.py     -- change_email_validation
* src/middlewares.py + src/app.py        -- AddJWTToResponseMiddleware.dispatch,
                                            EXCLUDED_PATHS

The persistence store is modelled as an in-memory database; a SQLAlchemy
AsyncSession is modelled as a pair of database snapshots (last committed
state / current working state) plus an in-transaction flag.  Outbound email
(aiosmtplib, src/services/email_service.py) is modelled as an outbox list
that is NOT affected by transaction rollback, matching the fact that a sent
email cannot be undone by a database rollback.  bcrypt hashing/verification
is an external library and is passed in as a function parameter.  Python
ints are modelled as Int (or Nat where the source guarantees nonnegative),
nullable columns as Option.
-/

namespace MagicTales

/-- An HTTP error as raised by fastapi.HTTPException: a status code and a
detail message. -/
structure HttpError where
  status : Nat
  detail : String
deriving Repr, DecidableEq

/-- A row of the users table (src/models/db/user.py).  `email` is kept as an
Option at the ORM-object level because change_email_validation assigns
`user.email = user.new_email`, which can be null. -/
structure UserRec where
  id : Nat
  name : Option String
  lastName : Option String
  username : String
  email : Option String
  password : String
  newEmail : Option String
  validationCode : Option Int
  active : Bool
  planId : Option Nat
deriving Repr, DecidableEq

/-- A row of the plans table (src/models/db/plan.py); only the fields the
session controller reads. -/
structure PlanRec where
  id : Nat
  name : String
deriving Repr, DecidableEq

/-- An outbound email, as passed to send_email(to, subject, content); the
first argument is named `recipient` here. -/
structure EmailMsg where
  recipient : String
  subject : String
  content : String
deriving Repr, DecidableEq

/-- The persistence store: users and plans tables plus the autoincrement
counter that assigns ids on insert. -/
structure DB where
  users : List UserRec
  plans : List PlanRec
  nextId : Nat
deriving Repr, DecidableEq

/-- A SQLAlchemy AsyncSession together with the request-scoped side effects:
`committed` is the database state as of the last commit, `current` the
working state seen by queries inside the session, `inTx` the result of
session.in_transaction(), and `outbox` the emails sent so far (sending is
not transactional, so rollback leaves `outbox` alone). -/
structure SessionState where
  committed : DB
  current : DB
  inTx : Bool
  outbox : List EmailMsg
deriving Repr, DecidableEq

/-- session.begin(): start a transaction. -/
def txBegin (s : SessionState) : SessionState :=
  { s with inTx := true }

/-- session.commit(): make the working state durable and end the
transaction. -/
def txCommit (s : SessionState) : SessionState :=
  { s with committed := s.current, inTx := false }

/-- session.rollback(): discard the working state and end the
transaction. -/
def txRollback (s : SessionState) : SessionState :=
  { s with current := s.committed, inTx := false }

/-- src/db.py transaction_context(session).  A body is modelled as a state
transformer returning the updated session state and either a value or a
raised error.

Source:
  if not session.in_transaction():
      async with session.begin():
          yield                  -- begin; commit on normal exit,
                                 -- rollback + re-raise on exception
  else:
      yield
      if session.in_transaction():
          try:
              await session.commit()
          except Exception:
              await session.rollback()
              raise

(The commit call itself is a persistence-layer operation and is modelled as
always succeeding; the store is an out-of-scope collaborator.) -/
def transaction_context {α : Type} (body : SessionState → SessionState × Except HttpError α)
    (s : SessionState) : SessionState × Except HttpError α :=
  if s.inTx = false then
    match body (txBegin s) with
    | (s2, Except.ok a) => (txCommit s2, Except.ok a)
    | (s2, Except.error e) => (txRollback s2, Except.error e)
  else
    match body s with
    | (s2, Except.ok a) =>
        if s2.inTx = true then (txCommit s2, Except.ok a) else (s2, Except.ok a)
    | (s2, Except.error e) => (s2, Except.error e)

/-- src/services/user_service.py check_validation_code(validation_code,
user_validation_code).  The candidate always arrives as a Form int; the
stored column is nullable.  Python: `if user_validation_code !=
validation_code: return False; return True`, where None != c is true for
every int c. -/
def check_validation_code (validation_code : Int) (user_validation_code : Option Int) : Bool :=
  if user_validation_code ≠ some validation_code then false
  else true

/-!  JWT model (src/services/session_service.py).  PyJWT signing with the
symmetric secret is modelled symbolically: an encoded token records the
claim set and the key it was signed with; decoding with key k at time `now`
succeeds exactly when the token was signed with k and its expiry has not
elapsed, every other failure collapsing to the single PyJWTError branch.
Timestamps are epoch seconds (Int); the TTL is JWT_EXP_TIME_IN_MINUTES. -/

/-- The claim set carried by a token: user_id plus the context-specific
extras (username, email) and the expiry stamp `exp`. -/
structure Claims where
  userId : Nat
  username : Option String
  email : Option String
  exp : Int
deriving Repr, DecidableEq

/-- An encoded token: the payload plus the signing key it was produced
with (symbolic model of the HMAC signature). -/
structure Token where
  claims : Claims
  signedWith : String
deriving Repr, DecidableEq

/-- jwt.encode(payload, key): sign the claim set with the key. -/
def jwtEncode (key : String) (c : Claims) : Token :=
  { claims := c, signedWith := key }

/-- jwt.decode(token, key): returns the payload when the signature checks
out under `key` and the expiry is still in the future at time `now`;
returns none (PyJWTError) otherwise. -/
def jwtDecode (key : String) (now : Int) (t : Token) : Option Claims :=
  if t.signedWith = key ∧ now < t.claims.exp then some t.claims else none

/-- src/services/session_service.py create_access_token(data): stamps
exp := now + TTL minutes and signs. -/
def create_access_token (key : String) (now ttlMinutes : Int)
    (userId : Nat) (username email : Option String) : Token :=
  jwtEncode key { userId := userId, username := username, email := email,
                  exp := now + ttlMinutes * 60 }

/-- src/services/session_service.py refresh_access_token(token): decode
(which validates signature and expiry), re-stamp exp := now + TTL minutes,
re-sign; any PyJWTError becomes HTTPException(401, "Invalid token"). -/
def refresh_access_token (key : String) (now ttlMinutes : Int) (t : Token) :
    Except HttpError Token :=
  match jwtDecode key now t with
  | some payload =>
      Except.ok (jwtEncode key { payload with exp := now + ttlMinutes * 60 })
  | none => Except.error { status := 401, detail := "Invalid token" }

/-!  Login (src/controllers/session_controller.py login). -/

/-- Prefix test on strings, modelling Python str.startswith. -/
def strStartsWith (s pre : String) : Bool :=
  pre.toList.isPrefixOf s.toList

/-- Whether a character list starts with a character other than "@". -/
def headNonAt : List Char → Bool
  | d :: _ => d ≠ '@'
  | [] => false

/-- Tail of the regex match: after the first "@", the pattern
[^@]+\.[^@]+ must match a prefix of the remaining characters, with at
least one non-@ character already consumed before the candidate dot
(backtracking allows dots inside the leading [^@]+ run). -/
def midAux : List Char → Bool
  | [] => false
  | c :: rest =>
      if c = '.' ∧ headNonAt rest = true then true
      else if c ≠ '@' then midAux rest
      else false

/-- Match the sub-pattern [^@]+\.[^@]+ against a prefix of the list. -/
def midMatch : List Char → Bool
  | [] => false
  | c :: rest => if c ≠ '@' then midAux rest else false

/-- After one leading non-@ character, consume further non-@ characters up
to the first "@" and hand the rest to midMatch. -/
def emailAux : List Char → Bool
  | [] => false
  | c :: rest => if c = '@' then midMatch rest else emailAux rest

/-- re.match(r"[^@]+@[^@]+\.[^@]+", s): anchored prefix match deciding
whether the login identifier is treated as an email or as a username. -/
def looksLikeEmail (s : String) : Bool :=
  match s.toList with
  | [] => false
  | c :: rest => if c = '@' then false else emailAux rest

/-- The user lookup performed by login: by email when the identifier looks
like an email, by username otherwise (scalars().first() on the filtered
select). -/
def loginLookup (userField : String) (db : DB) : Option UserRec :=
  if looksLikeEmail userField then
    db.users.find? (fun u => decide (u.email = some userField))
  else
    db.users.find? (fun u => decide (u.username = userField))

/-- The success payload of login (models the UserAPI response; the image
field is out of scope). -/
structure LoginResponse where
  id : Nat
  name : Option String
  lastName : Option String
  username : String
  email : Option String
  token : Token
deriving Repr, DecidableEq

/-- src/controllers/session_controller.py login(user, password).  bcrypt
verification is the parameter `verifyp`.  A missing user and a wrong
password raise the identical HTTPException(401, "Invalid User or
Password"); an inactive user raises 401 "User is not active"; otherwise a
token is minted over {user_id, username, email}. -/
def login (verifyp : String → String → Bool) (key : String) (now ttlMinutes : Int)
    (userField password : String) (db : DB) : Except HttpError LoginResponse :=
  match loginLookup userField db with
  | none => Except.error { status := 401, detail := "Invalid User or Password" }
  | some u =>
      if verifyp password u.password = false then
        Except.error { status := 401, detail := "Invalid User or Password" }
      else if u.active = false then
        Except.error { status := 401, detail := "User is not active" }
      else
        Except.ok { id := u.id, name := u.name, lastName := u.lastName,
                    username := u.username, email := u.email,
                    token := create_access_token key now ttlMinutes u.id
                      (some u.username) u.email }

/-!  Registration and the code-consuming endpoints.  Each endpoint body runs
inside transaction_context on a request-scoped session (get_session yields a
fresh session, so the endpoint enters with inTx = false). -/

/-- random.randint(lo, hi) applied to a seed: a value in [lo, hi] chosen by
the ambient randomness, which the embedding threads explicitly. -/
def randint (lo hi seed : Nat) : Nat :=
  lo + seed % (hi + 1 - lo)

/-- ORM identity-map update: mutating a loaded row object updates the row
with that primary key. -/
def updateUserById (users : List UserRec) (uid : Nat) (f : UserRec → UserRec) :
    List UserRec :=
  users.map (fun u => if u.id = uid then f u else u)

/-- Body of src/controllers/session_controller.py register, i.e. the code
inside its `async with transaction_context(session)` block: look up the
"Free Plan", check username then email uniqueness, hash the password
(parameter `hashp` models bcrypt via hash_password_async), draw the
validation code with random.randint(100000, 999999), send the validation
email, then session.add the new user (autoincrement id, active defaulting
to false per the column default). -/
def registerBody (hashp : String → String) (seed : Nat)
    (name lastName email username password : String)
    (s : SessionState) : SessionState × Except HttpError Nat :=
  match s.current.plans.find? (fun p => decide (p.name = "Free Plan")) with
  | none => (s, Except.error { status := 404, detail := "Free plan doesn't exist" })
  | some freePlan =>
    match s.current.users.find? (fun u => decide (u.username = username)) with
    | some _ => (s, Except.error { status := 422, detail := "The username already exists" })
    | none =>
      match s.current.users.find? (fun u => decide (u.email = some email)) with
      | some _ => (s, Except.error { status := 422, detail := "The email already exists" })
      | none =>
        let hashedPassword := hashp password
        let validationCode := randint 100000 999999 seed
        let newUser : UserRec :=
          { id := s.current.nextId, name := some name, lastName := some lastName,
            username := username, email := some email, password := hashedPassword,
            newEmail := none, validationCode := some (Int.ofNat validationCode),
            active := false, planId := some freePlan.id }
        let msg : EmailMsg :=
          { recipient := email, subject := "Magic Tales - Validate email",
            content := "The validation code is: " ++ toString validationCode }
        let s1 := { s with outbox := s.outbox ++ [msg] }
        let s2 := { s1 with current :=
          { s1.current with users := s1.current.users ++ [newUser],
                            nextId := s1.current.nextId + 1 } }
        (s2, Except.ok newUser.id)

/-- src/controllers/session_controller.py register: the body wrapped in
transaction_context. -/
def register (hashp : String → String) (seed : Nat)
    (name lastName email username password : String)
    (s : SessionState) : SessionState × Except HttpError Nat :=
  transaction_context (registerBody hashp seed name lastName email username password) s

/-- Body of src/controllers/session_controller.py register_validation: look
the user up by email; 404 when absent; 422 when the code check fails;
otherwise set active := 1 and clear validation_code. -/
def registerValidationBody (email : String) (validationCode : Int)
    (s : SessionState) : SessionState × Except HttpError Bool :=
  match s.current.users.find? (fun u => decide (u.email = some email)) with
  | none => (s, Except.error { status := 404, detail := "User not found" })
  | some u =>
      if check_validation_code validationCode u.validationCode = false then
        (s, Except.error { status := 422, detail := "Validation code is not valid" })
      else
        let users1 :=
          updateUserById s.current.users u.id
            (fun v => { v with active := true, validationCode := none })
        ({ s with current := { s.current with users := users1 } }, Except.ok true)

/-- src/controllers/session_controller.py register_validation: the body
wrapped in transaction_context. -/
def register_validation (email : String) (validationCode : Int)
    (s : SessionState) : SessionState × Except HttpError Bool :=
  transaction_context (registerValidationBody email validationCode) s

/-- Body of src/controllers/session_controller.py
recover_password_validation: 404 when the email is unknown; 422 when the
code check fails; 422 when the two passwords differ; otherwise replace the
password hash and clear validation_code. -/
def recoverPasswordValidationBody (hashp : String → String)
    (email newPassword repeatedNewPassword : String) (validationCode : Int)
    (s : SessionState) : SessionState × Except HttpError Bool :=
  match s.current.users.find? (fun u => decide (u.email = some email)) with
  | none => (s, Except.error { status := 404, detail := "User not found" })
  | some u =>
      if check_validation_code validationCode u.validationCode = false then
        (s, Except.error { status := 422, detail := "Validation code is not valid" })
      else if newPassword ≠ repeatedNewPassword then
        (s, Except.error { status := 422, detail := "The new password and repeated new password must be the same" })
      else
        let users1 :=
          updateUserById s.current.users u.id
            (fun v => { v with password := hashp newPassword, validationCode := none })
        ({ s with current := { s.current with users := users1 } }, Except.ok true)

/-- src/controllers/session_controller.py recover_password_validation: the
body wrapped in transaction_context. -/
def recover_password_validation (hashp : String → String)
    (email newPassword repeatedNewPassword : String) (validationCode : Int)
    (s : SessionState) : SessionState × Except HttpError Bool :=
  transaction_context
    (recoverPasswordValidationBody hashp email newPassword repeatedNewPassword validationCode) s

/-- Body of src/controllers/user_controller.py change_email_validation: the
user comes from session.get(User, token_data["user_id"]); 404 when absent;
422 when the code check fails; otherwise email := new_email (whatever it
holds, including null), then new_email and validation_code are cleared.  No
check that an email change is actually pending. -/
def changeEmailValidationBody (userId : Nat) (validationCode : Int)
    (s : SessionState) : SessionState × Except HttpError Bool :=
  match s.current.users.find? (fun u => decide (u.id = userId)) with
  | none => (s, Except.error { status := 404, detail := "User not found" })
  | some u =>
      if check_validation_code validationCode u.validationCode = false then
        (s, Except.error { status := 422, detail := "Validation code is not valid" })
      else
        let users1 :=
          updateUserById s.current.users u.id
            (fun v => { v with email := v.newEmail, newEmail := none, validationCode := none })
        ({ s with current := { s.current with users := users1 } }, Except.ok true)

/-- src/controllers/user_controller.py change_email_validation: the body
wrapped in transaction_context. -/
def change_email_validation (userId : Nat) (validationCode : Int)
    (s : SessionState) : SessionState × Except HttpError Bool :=
  transaction_context (changeEmailValidationBody userId validationCode) s

/-!  Response-side JWT refresh hook (src/middlewares.py
AddJWTToResponseMiddleware.dispatch) and its configuration
(src/app.py EXCLUDED_PATHS). -/

/-- The value of a request's Authorization header.  A value of the form
"Bearer <jwt>" is `bearer t` (a syntactically present but cryptographically
invalid jwt string is a token that fails to decode); any other header value
is `raw s` (startswith("Bearer ") is false). -/
inductive AuthHeader
  | raw (s : String)
  | bearer (t : Token)
deriving Repr, DecidableEq

/-- The slice of an HTTP request the middleware reads: the URL path and the
Authorization header, when present. -/
structure HttpRequest where
  path : String
  authorization : Option AuthHeader
deriving Repr, DecidableEq

/-- The slice of an HTTP response the middleware can touch: a status, a
body tag, and the Authorization response header. -/
structure HttpResponse where
  status : Nat
  body : String
  authorization : Option AuthHeader
deriving Repr, DecidableEq

/-- src/app.py EXCLUDED_PATHS: paths exempt from the refresh hook. -/
def EXCLUDED_PATHS : List String :=
  ["/session/login", "/session/register", "/session/login-swagger",
   "/docs", "/openapi.json", "/static"]

/-- src/middlewares.py AddJWTToResponseMiddleware.dispatch.  `resp` is the
response already produced by call_next(request).  On a non-excluded path
with a Bearer authorization header, refresh_access_token is called; its
HTTPException (token invalid) propagates out of dispatch uncaught — the
Except.error result — rather than the original response being returned.
Every other case forwards `resp` unchanged, except the success case which
overwrites only the Authorization response header. -/
def dispatch (key : String) (now ttlMinutes : Int) (excludedPaths : List String)
    (req : HttpRequest) (resp : HttpResponse) : Except HttpError HttpResponse :=
  if (excludedPaths.any (fun p => strStartsWith req.path p)) = false then
    match req.authorization with
    | some (AuthHeader.bearer t) =>
        match refresh_access_token key now ttlMinutes t with
        | Except.ok t1 => Except.ok { resp with authorization := some (AuthHeader.bearer t1) }
        | Except.error e => Except.error e
    | some (AuthHeader.raw _) => Except.ok resp
    | none => Except.ok resp
  else
    Except.ok resp

/-!  Concrete sample data used by witnesses and counterexamples. -/

/-- An empty persistence store. -/
def dbEmpty : DB := { users := [], plans := [], nextId := 1 }

/-- The "Free Plan" row. -/
def planFree : PlanRec := { id := 1, name := "Free Plan" }

/-- A pending-activation user as produced by registration. -/
def userAlice : UserRec :=
  { id := 1, name := some "Alice", lastName := some "A", username := "alice",
    email := some "a@x.com", password := "h:pw1", newEmail := none,
    validationCode := some 111111, active := false, planId := some 1 }

/-- A store holding the Free Plan and alice. -/
def dbAlice : DB := { users := [userAlice], plans := [planFree], nextId := 2 }

/-- A store holding only the Free Plan. -/
def dbPlanOnly : DB := { users := [], plans := [planFree], nextId := 1 }

/-- Sample stand-in for bcrypt used by witnesses: hash p = "h:" ++ p. -/
def hashpSample : String → String := fun p => "h:" ++ p

/-- Sample stand-in for bcrypt verification matching hashpSample. -/
def verifySample : String → String → Bool := fun p h => decide ("h:" ++ p = h)

/-- A fresh request-scoped session over a store. -/
def freshSession (db : DB) : SessionState :=
  { committed := db, current := db, inTx := false, outbox := [] }

/-- A session that is already inside an enclosing transaction and has a
pending (uncommitted) write: current differs from committed. -/
def nestedSession : SessionState :=
  { committed := dbEmpty, current := dbPlanOnly, inTx := true, outbox := [] }

/-- A token signed with "secret" whose expiry is exactly now + TTL at
now = 0, TTL = 30 minutes. -/
def tokenJustIssued : Token :=
  jwtEncode "secret" { userId := 1, username := none, email := none, exp := 1800 }

/-- A token signed with the wrong key: its refresh fails. -/
def tokenBadKey : Token :=
  jwtEncode "other" { userId := 1, username := none, email := none, exp := 1800 }

/-- A request on a non-excluded path carrying an invalid bearer token. -/
def reqBadToken : HttpRequest :=
  { path := "/user/update", authorization := some (AuthHeader.bearer tokenBadKey) }

/-- A sample successful handler response. -/
def respSample : HttpResponse := { status := 200, body := "ok", authorization := none }

/-!  Helper lemmas shared between claims. -/

/-- Updating the found row through the identity map leaves it findable: if
`u` is the first row satisfying `p` and the update `f` does not change
whether any row (updated or not) satisfies `p`, then after updating the
rows with `u`'s id the first row satisfying `p` is `f u`. -/
theorem find?_updateUserById (users : List UserRec) (p : UserRec → Bool) (u : UserRec)
    (hu : users.find? p = some u) (f : UserRec → UserRec)
    (hp : ∀ v, p (if v.id = u.id then f v else v) = p v) :
    (updateUserById users u.id f).find? p = some (f u) := by
  induction users with
  | nil => simp at hu
  | cons v rest ih =>
      by_cases hv : p v = true
      · rw [List.find?_cons_of_pos _ hv] at hu
        have huv : v = u := by exact Option.some.inj hu
        subst huv
        have hfv : p (f v) = true := by
          have h2 := hp v
          simp at h2
          rw [h2]; exact hv
        have hhd : updateUserById (v :: rest) v.id f =
            f v :: List.map (fun w => if w.id = v.id then f w else w) rest := by
          simp [updateUserById]
        rw [hhd, List.find?_cons_of_pos _ hfv]
      · have hv' : p v = false := by exact Bool.eq_false_iff.mpr hv
        rw [List.find?_cons_of_neg _ hv] at hu
        have hhead : p (if v.id = u.id then f v else v) = false := by
          rw [hp v]; exact hv'
        simp only [updateUserById, List.map_cons]
        rw [List.find?_cons_of_neg _ (by simp [hhead])]
        exact ih hu

/-- On a fresh session (no active transaction), a body that completes
normally gets begin + commit around it. -/
theorem transaction_context_fresh_ok {α : Type}
    (body : SessionState → SessionState × Except HttpError α)
    (s s2 : SessionState) (a : α)
    (hfresh : s.inTx = false) (hbody : body (txBegin s) = (s2, Except.ok a)) :
    transaction_context body s = (txCommit s2, Except.ok a) := by
  simp [transaction_context, hfresh, hbody]

/-- On a fresh session, a body that raises gets begin + rollback around it
and the error is re-raised. -/
theorem transaction_context_fresh_error {α : Type}
    (body : SessionState → SessionState × Except HttpError α)
    (s s2 : SessionState) (e : HttpError)
    (hfresh : s.inTx = false) (hbody : body (txBegin s) = (s2, Except.error e)) :
    transaction_context body s = (txRollback s2, Except.error e) := by
  simp [transaction_context, hfresh, hbody]

/-- Rolling back a transaction begun on a fresh, clean session restores the
session exactly. -/
theorem rollback_fresh_eq (s : SessionState)
    (hfresh : s.inTx = false) (hcur : s.current = s.committed) :
    txRollback (txBegin s) = s := by
  cases s with
  | mk c cur it ob =>
      simp only at hfresh hcur
      subst hfresh
      subst hcur
      rfl

/-- C7: for every candidate code and every stored code value (possibly
null), check_validation_code(candidate, stored) returns true if and only if
the stored value is non-null and numerically equal to the candidate. -/
theorem check_validation_code_spec (candidate : Int) (stored : Option Int) :
    check_validation_code candidate stored = true ↔
      ∃ v, stored = some v ∧ v = candidate := by
  unfold check_validation_code
  by_cases h : stored = some candidate
  · subst h; simp
  · simp [h]

/-- C4, counterexample to the claim as stated: a token whose expiry is
exactly now + TTL verifies successfully, and refreshing it at that same
instant returns a token (in fact the same token) whose expiry equals — is
not strictly later than — the input token's expiry. -/
theorem refresh_not_strictly_later_counterexample :
    jwtDecode "secret" 0 tokenJustIssued = some tokenJustIssued.claims ∧
    refresh_access_token "secret" 0 30 tokenJustIssued = Except.ok tokenJustIssued ∧
    ¬ tokenJustIssued.claims.exp < tokenJustIssued.claims.exp := by
  refine ⟨rfl, rfl, ?_⟩
  decide

/-- C4 (amended): for every token that verifies successfully, refresh
returns a token whose identity claims (user_id, username, email) are
identical to the input token's and whose expiry is re-stamped to
now + TTL; that expiry is strictly later than the input token's expiry
whenever the input expiry is earlier than now + TTL (e.g. a token stamped
at a strictly earlier clock reading), but merely equal when the input was
stamped at the same instant. -/
theorem refresh_amended (key : String) (now ttlMinutes : Int) (t : Token) (p : Claims)
    (hdec : jwtDecode key now t = some p) :
    ∃ t1, refresh_access_token key now ttlMinutes t = Except.ok t1 ∧
      t1.claims.userId = p.userId ∧ t1.claims.username = p.username ∧
      t1.claims.email = p.email ∧ t1.claims.exp = now + ttlMinutes * 60 ∧
      (p.exp < now + ttlMinutes * 60 → p.exp < t1.claims.exp) := by
  unfold refresh_access_token
  rw [hdec]
  exact ⟨_, rfl, rfl, rfl, rfl, rfl, fun h => h⟩

/-- C4 witness: refresh_amended applied at a concrete verifying token whose
expiry lies strictly before now + TTL. -/
theorem refresh_amended_witness :
    jwtDecode "secret" 900 tokenJustIssued = some tokenJustIssued.claims ∧
    ∃ t1, refresh_access_token "secret" 900 30 tokenJustIssued = Except.ok t1 ∧
      t1.claims.userId = tokenJustIssued.claims.userId ∧
      t1.claims.username = tokenJustIssued.claims.username ∧
      t1.claims.email = tokenJustIssued.claims.email ∧
      t1.claims.exp = 900 + 30 * 60 ∧
      (tokenJustIssued.claims.exp < 900 + 30 * 60 →
        tokenJustIssued.claims.exp < t1.claims.exp) :=
  ⟨rfl, refresh_amended "secret" 900 30 tokenJustIssued tokenJustIssued.claims rfl⟩

/-- C1, counterexample to the claim as stated: on a session with an active
enclosing transaction and a pending uncommitted write, a body that
completes normally (and writes nothing itself) makes transaction_context
commit the enclosing transaction — afterwards the transaction is closed
and the pending write has become durable — instead of leaving commit to
the outer owner. -/
theorem transaction_context_nested_commit_counterexample :
    nestedSession.inTx = true ∧
    nestedSession.current ≠ nestedSession.committed ∧
    (transaction_context (fun s => (s, Except.ok 0)) nestedSession).2 = Except.ok 0 ∧
    (transaction_context (fun s => (s, Except.ok 0)) nestedSession).1.inTx = false ∧
    (transaction_context (fun s => (s, Except.ok 0)) nestedSession).1.committed ≠
      nestedSession.committed ∧
    (transaction_context (fun s => (s, Except.ok 0)) nestedSession).1.committed =
      nestedSession.current := by
  refine ⟨rfl, ?_, rfl, rfl, ?_, rfl⟩
  · decide
  · decide

/-- C1 (amended): transaction_context starts a transaction when none is
active and commits on normal completion; when a transaction is already
active, on normal completion it commits the enclosing transaction itself
whenever the body leaves it open (rather than leaving commit to the outer
owner), and performs no commit only when the body already closed the
transaction — so a single commit happens per call, never two. -/
theorem transaction_context_amended {α : Type}
    (body : SessionState → SessionState × Except HttpError α)
    (s s2 : SessionState) (a : α)
    (hbody : body (if s.inTx = true then s else txBegin s) = (s2, Except.ok a)) :
    transaction_context body s =
      if s.inTx = true ∧ s2.inTx = false then (s2, Except.ok a)
      else (txCommit s2, Except.ok a) := by
  cases hs : s.inTx with
  | false =>
      rw [hs] at hbody
      simp at hbody
      simp [transaction_context, hs, hbody]
  | true =>
      rw [hs] at hbody
      simp at hbody
      cases h2 : s2.inTx with
      | false => simp [transaction_context, hs, hbody, h2]
      | true => simp [transaction_context, hs, hbody, h2]

/-- C1 witness: transaction_context_amended applied on the nested session
with an open-transaction body; the wrapper then commits the enclosing
transaction. -/
theorem transaction_context_amended_witness :
    transaction_context (fun s => (s, Except.ok 0)) nestedSession =
      (txCommit nestedSession, Except.ok 0) := by
  have h := transaction_context_amended (fun s => (s, Except.ok 0))
    nestedSession nestedSession 0 rfl
  simpa using h

/-- C2: with a "Free Plan" present, registering a fresh username and email
inserts exactly one user record, in pending activation (active = false,
validation code a 6-digit integer in [100000, 999999]), and sends exactly
one email to the submitted address; registering an already-stored email
(or username) fails with the 422 uniqueness error and performs zero
persistence writes — the committed store is untouched and the rollback
leaves the working state equal to it. -/
theorem register_spec (hashp : String → String) (seed : Nat)
    (nm ln em un pw : String) (s : SessionState) (fp : PlanRec)
    (hfresh : s.inTx = false) (hcur : s.current = s.committed)
    (hplan : s.current.plans.find? (fun p => decide (p.name = "Free Plan")) = some fp) :
    (s.current.users.find? (fun u => decide (u.username = un)) = none →
     s.current.users.find? (fun u => decide (u.email = some em)) = none →
     ∃ u c,
       (register hashp seed nm ln em un pw s).2 = Except.ok u.id ∧
       (register hashp seed nm ln em un pw s).1.committed.users = s.committed.users ++ [u] ∧
       (register hashp seed nm ln em un pw s).1.current = (register hashp seed nm ln em un pw s).1.committed ∧
       (register hashp seed nm ln em un pw s).1.inTx = false ∧
       u.active = false ∧ u.validationCode = some (Int.ofNat c) ∧
       100000 ≤ c ∧ c ≤ 999999 ∧ u.email = some em ∧ u.username = un ∧
       (register hashp seed nm ln em un pw s).1.outbox = s.outbox ++
         [{ recipient := em, subject := "Magic Tales - Validate email", content := "The validation code is: " ++ toString c }]) ∧
    (∀ u0, s.current.users.find? (fun u => decide (u.username = un)) = none →
       s.current.users.find? (fun u => decide (u.email = some em)) = some u0 →
       register hashp seed nm ln em un pw s =
         (s, Except.error { status := 422, detail := "The email already exists" })) ∧
    (∀ u0, s.current.users.find? (fun u => decide (u.username = un)) = some u0 →
       register hashp seed nm ln em un pw s =
         (s, Except.error { status := 422, detail := "The username already exists" })) := by
  refine ⟨?_, ?_, ?_⟩
  · intro hun hem
    have hbody : registerBody hashp seed nm ln em un pw (txBegin s) =
        ({ s with
            inTx := true,
            outbox := s.outbox ++ [{ recipient := em, subject := "Magic Tales - Validate email", content := "The validation code is: " ++ toString (randint 100000 999999 seed) }],
            current := { s.current with
              users := s.current.users ++ [{ id := s.current.nextId, name := some nm, lastName := some ln, username := un, email := some em, password := hashp pw, newEmail := none, validationCode := some (Int.ofNat (randint 100000 999999 seed)), active := false, planId := some fp.id }],
              nextId := s.current.nextId + 1 } },
         Except.ok s.current.nextId) := by
      simp [registerBody, txBegin, hplan, hun, hem]
    have hreg := transaction_context_fresh_ok _ s _ _ hfresh hbody
    refine ⟨{ id := s.current.nextId, name := some nm, lastName := some ln, username := un, email := some em, password := hashp pw, newEmail := none, validationCode := some (Int.ofNat (randint 100000 999999 seed)), active := false, planId := some fp.id },
      randint 100000 999999 seed, ?_, ?_, ?_, ?_, rfl, rfl, ?_, ?_, rfl, rfl, ?_⟩
    · rw [show register hashp seed nm ln em un pw s = _ from hreg]
    · rw [show register hashp seed nm ln em un pw s = _ from hreg]
      simp [txCommit, hcur]
    · rw [show register hashp seed nm ln em un pw s = _ from hreg]
      simp [txCommit]
    · rw [show register hashp seed nm ln em un pw s = _ from hreg]
      simp [txCommit]
    · unfold randint
      omega
    · unfold randint
      have : seed % (999999 + 1 - 100000) < 900000 := Nat.mod_lt _ (by norm_num)
      omega
    · rw [show register hashp seed nm ln em un pw s = _ from hreg]
      simp [txCommit]
  · intro u0 hun hem
    have hbody : registerBody hashp seed nm ln em un pw (txBegin s) =
        (txBegin s, Except.error { status := 422, detail := "The email already exists" }) := by
      simp [registerBody, txBegin, hplan, hun, hem]
    have hreg := transaction_context_fresh_error _ s _ _ hfresh hbody
    rw [show register hashp seed nm ln em un pw s = _ from hreg,
      rollback_fresh_eq s hfresh hcur]
  · intro u0 hun
    have hbody : registerBody hashp seed nm ln em un pw (txBegin s) =
        (txBegin s, Except.error { status := 422, detail := "The username already exists" }) := by
      simp [registerBody, txBegin, hplan, hun]
    have hreg := transaction_context_fresh_error _ s _ _ hfresh hbody
    rw [show register hashp seed nm ln em un pw s = _ from hreg,
      rollback_fresh_eq s hfresh hcur]

/-- C2 witness: register_spec applied on a fresh session over a store
holding only the Free Plan, with a fresh username and email. -/
theorem register_spec_witness :
    (freshSession dbPlanOnly).inTx = false ∧
    (freshSession dbPlanOnly).current = (freshSession dbPlanOnly).committed ∧
    (freshSession dbPlanOnly).current.plans.find? (fun p => decide (p.name = "Free Plan")) = some planFree ∧
    (∃ u c,
      (register hashpSample 5 "Alice" "A" "a@x.com" "alice" "pw1" (freshSession dbPlanOnly)).2 = Except.ok u.id ∧
      (register hashpSample 5 "Alice" "A" "a@x.com" "alice" "pw1" (freshSession dbPlanOnly)).1.committed.users = (freshSession dbPlanOnly).committed.users ++ [u] ∧
      (register hashpSample 5 "Alice" "A" "a@x.com" "alice" "pw1" (freshSession dbPlanOnly)).1.current = (register hashpSample 5 "Alice" "A" "a@x.com" "alice" "pw1" (freshSession dbPlanOnly)).1.committed ∧
      (register hashpSample 5 "Alice" "A" "a@x.com" "alice" "pw1" (freshSession dbPlanOnly)).1.inTx = false ∧
      u.active = false ∧ u.validationCode = some (Int.ofNat c) ∧
      100000 ≤ c ∧ c ≤ 999999 ∧ u.email = some "a@x.com" ∧ u.username = "alice" ∧
      (register hashpSample 5 "Alice" "A" "a@x.com" "alice" "pw1" (freshSession dbPlanOnly)).1.outbox = (freshSession dbPlanOnly).outbox ++
        [{ recipient := "a@x.com", subject := "Magic Tales - Validate email", content := "The validation code is: " ++ toString c }]) :=
  ⟨rfl, rfl, rfl,
   (register_spec hashpSample 5 "Alice" "A" "a@x.com" "alice" "pw1"
     (freshSession dbPlanOnly) planFree rfl rfl rfl).1 rfl rfl⟩

/-- C8: when the password does not verify, login returns the identical
error — status 401, detail "Invalid User or Password" — whether the
looked-up account exists in the store or not, so the failure reveals
nothing about account existence. -/
theorem login_existence_oracle_spec (verifyp : String → String → Bool) (key : String)
    (now ttlMinutes : Int) (userField password : String) (db1 db2 : DB) (u : UserRec)
    (hfound : loginLookup userField db1 = some u)
    (hwrong : verifyp password u.password = false)
    (habsent : loginLookup userField db2 = none) :
    login verifyp key now ttlMinutes userField password db1 =
      Except.error { status := 401, detail := "Invalid User or Password" } ∧
    login verifyp key now ttlMinutes userField password db2 =
      Except.error { status := 401, detail := "Invalid User or Password" } ∧
    login verifyp key now ttlMinutes userField password db1 =
      login verifyp key now ttlMinutes userField password db2 := by
  have h1 : login verifyp key now ttlMinutes userField password db1 =
      Except.error { status := 401, detail := "Invalid User or Password" } := by
    unfold login
    rw [hfound]
    simp [hwrong]
  have h2 : login verifyp key now ttlMinutes userField password db2 =
      Except.error { status := 401, detail := "Invalid User or Password" } := by
    unfold login
    rw [habsent]
  exact ⟨h1, h2, by rw [h1, h2]⟩

/-- C8 witness: login with the wrong password against a store holding
alice and against the empty store yields the same 401 response. -/
theorem login_existence_oracle_witness :
    loginLookup "alice" dbAlice = some userAlice ∧
    verifySample "wrong" userAlice.password = false ∧
    loginLookup "alice" dbEmpty = none ∧
    (login verifySample "secret" 0 30 "alice" "wrong" dbAlice =
       Except.error { status := 401, detail := "Invalid User or Password" } ∧
     login verifySample "secret" 0 30 "alice" "wrong" dbEmpty =
       Except.error { status := 401, detail := "Invalid User or Password" } ∧
     login verifySample "secret" 0 30 "alice" "wrong" dbAlice =
       login verifySample "secret" 0 30 "alice" "wrong" dbEmpty) :=
  ⟨rfl, rfl, rfl,
   login_existence_oracle_spec verifySample "secret" 0 30 "alice" "wrong"
     dbAlice dbEmpty userAlice rfl rfl rfl⟩

/-- C9: a stored user whose active flag is false cannot log in even with
the correct password: login fails with 401 "User is not active" and never
reaches token issuance. -/
theorem login_inactive_spec (verifyp : String → String → Bool) (key : String)
    (now ttlMinutes : Int) (userField password : String) (db : DB) (u : UserRec)
    (hfound : loginLookup userField db = some u)
    (hpw : verifyp password u.password = true)
    (hinactive : u.active = false) :
    login verifyp key now ttlMinutes userField password db =
      Except.error { status := 401, detail := "User is not active" } := by
  unfold login
  rw [hfound]
  simp [hpw, hinactive]

/-- C9 witness: alice is inactive; logging in with her correct password
fails with "User is not active". -/
theorem login_inactive_witness :
    loginLookup "alice" dbAlice = some userAlice ∧
    verifySample "pw1" userAlice.password = true ∧
    userAlice.active = false ∧
    login verifySample "secret" 0 30 "alice" "pw1" dbAlice =
      Except.error { status := 401, detail := "User is not active" } :=
  ⟨rfl, rfl, rfl,
   login_inactive_spec verifySample "secret" 0 30 "alice" "pw1" dbAlice userAlice
     rfl rfl rfl⟩

/-- C3, counterexample to the claim as stated: on a non-excluded path with
an extractable bearer token whose refresh fails, dispatch does not forward
the handler's original response — the 401 HTTPException raised by
refresh_access_token propagates out of the hook uncaught. -/
theorem dispatch_refresh_failure_counterexample :
    (EXCLUDED_PATHS.any (fun p => strStartsWith reqBadToken.path p)) = false ∧
    reqBadToken.authorization = some (AuthHeader.bearer tokenBadKey) ∧
    refresh_access_token "secret" 0 30 tokenBadKey =
      Except.error { status := 401, detail := "Invalid token" } ∧
    dispatch "secret" 0 30 EXCLUDED_PATHS reqBadToken respSample =
      Except.error { status := 401, detail := "Invalid token" } ∧
    dispatch "secret" 0 30 EXCLUDED_PATHS reqBadToken respSample ≠
      Except.ok respSample := by
  refine ⟨by decide, rfl, rfl, rfl, ?_⟩
  intro h
  have h2 : (Except.error { status := 401, detail := "Invalid token" } :
      Except HttpError HttpResponse) = Except.ok respSample := by
    rw [← h]
    rfl
  exact Except.noConfusion h2

/-- C3 (amended): on an excluded path, or when no bearer token can be
extracted (missing Authorization header, or one not starting with
"Bearer "), the hook forwards the handler's original response unchanged;
when a bearer token is extracted but its refresh fails, the hook instead
lets the 401 "Invalid token" HTTPException escape, replacing the original
response; when extraction and refresh both succeed, the only change is
overwriting the response's Authorization header with the refreshed
token. -/
theorem dispatch_amended (key : String) (now ttlMinutes : Int)
    (req : HttpRequest) (resp : HttpResponse) :
    ((EXCLUDED_PATHS.any (fun p => strStartsWith req.path p)) = true →
      dispatch key now ttlMinutes EXCLUDED_PATHS req resp = Except.ok resp) ∧
    (req.authorization = none →
      dispatch key now ttlMinutes EXCLUDED_PATHS req resp = Except.ok resp) ∧
    (∀ sraw, req.authorization = some (AuthHeader.raw sraw) →
      dispatch key now ttlMinutes EXCLUDED_PATHS req resp = Except.ok resp) ∧
    (∀ t, req.authorization = some (AuthHeader.bearer t) →
      (EXCLUDED_PATHS.any (fun p => strStartsWith req.path p)) = false →
      jwtDecode key now t = none →
      dispatch key now ttlMinutes EXCLUDED_PATHS req resp =
        Except.error { status := 401, detail := "Invalid token" }) ∧
    (∀ t p, req.authorization = some (AuthHeader.bearer t) →
      (EXCLUDED_PATHS.any (fun q => strStartsWith req.path q)) = false →
      jwtDecode key now t = some p →
      dispatch key now ttlMinutes EXCLUDED_PATHS req resp =
        Except.ok { resp with authorization := some (AuthHeader.bearer (jwtEncode key { p with exp := now + ttlMinutes * 60 })) }) := by
  refine ⟨?_, ?_, ?_, ?_, ?_⟩
  · intro hexc
    simp [dispatch, hexc]
  · intro hauth
    unfold dispatch
    by_cases hexc : (EXCLUDED_PATHS.any (fun p => strStartsWith req.path p)) = false
    · rw [if_pos hexc, hauth]
    · rw [if_neg hexc]
  · intro sraw hauth
    unfold dispatch
    by_cases hexc : (EXCLUDED_PATHS.any (fun p => strStartsWith req.path p)) = false
    · rw [if_pos hexc, hauth]
    · rw [if_neg hexc]
  · intro t hauth hexc hbad
    simp [dispatch, hexc, hauth, refresh_access_token, hbad]
  · intro t p hauth hexc hgood
    simp [dispatch, hexc, hauth, refresh_access_token, hgood]

/-- C3 witness: dispatch_amended applied at concrete requests covering the
forward-unchanged cases (excluded path, missing header, non-bearer header),
the refresh-failure case, and the successful-refresh case. -/
theorem dispatch_amended_witness :
    dispatch "secret" 0 30 EXCLUDED_PATHS
      { path := "/session/login", authorization := none } respSample = Except.ok respSample ∧
    dispatch "secret" 0 30 EXCLUDED_PATHS
      { path := "/user/update", authorization := none } respSample = Except.ok respSample ∧
    dispatch "secret" 0 30 EXCLUDED_PATHS
      { path := "/user/update", authorization := some (AuthHeader.raw "Basic xyz") } respSample =
      Except.ok respSample ∧
    dispatch "secret" 0 30 EXCLUDED_PATHS reqBadToken respSample =
      Except.error { status := 401, detail := "Invalid token" } ∧
    dispatch "secret" 0 30 EXCLUDED_PATHS
      { path := "/user/update", authorization := some (AuthHeader.bearer tokenJustIssued) }
      respSample =
      Except.ok { respSample with authorization := some (AuthHeader.bearer (jwtEncode "secret" { tokenJustIssued.claims with exp := 0 + 30 * 60 })) } := by
  refine ⟨?_, ?_, ?_, ?_, ?_⟩
  · exact (dispatch_amended "secret" 0 30
      { path := "/session/login", authorization := none } respSample).1 (by decide)
  · exact (dispatch_amended "secret" 0 30
      { path := "/user/update", authorization := none } respSample).2.1 rfl
  · exact (dispatch_amended "secret" 0 30
      { path := "/user/update", authorization := some (AuthHeader.raw "Basic xyz") }
      respSample).2.2.1 "Basic xyz" rfl
  · exact (dispatch_amended "secret" 0 30 reqBadToken respSample).2.2.2.1
      tokenBadKey rfl (by decide) rfl
  · exact (dispatch_amended "secret" 0 30
      { path := "/user/update", authorization := some (AuthHeader.bearer tokenJustIssued) }
      respSample).2.2.2.2 tokenJustIssued tokenJustIssued.claims rfl (by decide) rfl

/-- On any fresh session, register_validation with a code that fails the
check raises 422 (helper shared by the activation claims). -/
theorem register_validation_wrong_code (em : String) (c : Int) (t : SessionState) (w : UserRec)
    (hfresh : t.inTx = false)
    (hfound : t.current.users.find? (fun v => decide (v.email = some em)) = some w)
    (hbad : check_validation_code c w.validationCode = false) :
    (register_validation em c t).2 =
      Except.error { status := 422, detail := "Validation code is not valid" } := by
  have hbody : registerValidationBody em c (txBegin t) =
      (txBegin t, Except.error { status := 422, detail := "Validation code is not valid" }) := by
    simp [registerValidationBody, txBegin, hfound, hbad]
  rw [show register_validation em c t = _ from
    transaction_context_fresh_error _ t _ _ hfresh hbody]

/-- C5: for a pending-activation user, submitting the stored code activates
the account and clears the code in the same committed unit of work — the
committed store holds the user with active = true and a null code — and a
second submission of the same code then fails with the 422
validation-code error: the code is single-use. -/
theorem activation_spec (em : String) (c : Int) (s : SessionState) (u : UserRec)
    (hfresh : s.inTx = false) (hcur : s.current = s.committed)
    (hfound : s.current.users.find? (fun v => decide (v.email = some em)) = some u)
    (hpending : u.active = false) (hcode : u.validationCode = some c) :
    ∃ s1 u1,
      register_validation em c s = (s1, Except.ok true) ∧
      s1.inTx = false ∧ s1.current = s1.committed ∧
      s1.committed.users = updateUserById s.current.users u.id
        (fun v => { v with active := true, validationCode := none }) ∧
      s1.committed.users.find? (fun v => decide (v.email = some em)) = some u1 ∧
      u1.active = true ∧ u1.validationCode = none ∧
      (register_validation em c s1).2 =
        Except.error { status := 422, detail := "Validation code is not valid" } := by
  have hp : ∀ v : UserRec,
      decide ((if v.id = u.id then { v with active := true, validationCode := none } else v).email = some em) =
        decide (v.email = some em) := by
    intro v
    by_cases h : v.id = u.id <;> simp [h]
  have hfind1 : (updateUserById s.current.users u.id
      (fun v => { v with active := true, validationCode := none })).find?
        (fun v => decide (v.email = some em)) =
      some { u with active := true, validationCode := none } :=
    find?_updateUserById s.current.users _ u hfound _ hp
  have hbody : registerValidationBody em c (txBegin s) =
      ({ s with inTx := true, current := { s.current with users := updateUserById s.current.users u.id (fun v => { v with active := true, validationCode := none }) } },
       Except.ok true) := by
    simp [registerValidationBody, txBegin, hfound, check_validation_code, hcode]
  have hreg := transaction_context_fresh_ok _ s _ _ hfresh hbody
  refine ⟨_, { u with active := true, validationCode := none },
    hreg, rfl, rfl, rfl, hfind1, rfl, rfl, ?_⟩
  exact register_validation_wrong_code em c _ _ rfl hfind1 rfl

/-- C5 witness: activation_spec applied to pending user alice with her
stored code 111111. -/
theorem activation_spec_witness :
    (freshSession dbAlice).inTx = false ∧
    (freshSession dbAlice).current.users.find? (fun v => decide (v.email = some "a@x.com")) = some userAlice ∧
    userAlice.active = false ∧ userAlice.validationCode = some 111111 ∧
    (∃ s1 u1,
      register_validation "a@x.com" 111111 (freshSession dbAlice) = (s1, Except.ok true) ∧
      s1.inTx = false ∧ s1.current = s1.committed ∧
      s1.committed.users = updateUserById (freshSession dbAlice).current.users userAlice.id
        (fun v => { v with active := true, validationCode := none }) ∧
      s1.committed.users.find? (fun v => decide (v.email = some "a@x.com")) = some u1 ∧
      u1.active = true ∧ u1.validationCode = none ∧
      (register_validation "a@x.com" 111111 s1).2 =
        Except.error { status := 422, detail := "Validation code is not valid" }) :=
  ⟨rfl, rfl, rfl, rfl,
   activation_spec "a@x.com" 111111 (freshSession dbAlice) userAlice rfl rfl rfl rfl rfl⟩

/-- C6: at each code-consuming endpoint (activation, password-recovery
confirmation, email-change confirmation), a submitted code that fails the
check against the user's stored code raises the 422 validation-code error
and leaves the session exactly as it was — the user record untouched and
the stored code not cleared, so a retry remains possible. -/
theorem wrong_code_unchanged_spec (hashp : String → String)
    (em np rnp : String) (uid : Nat) (c : Int) (s : SessionState) (uE uI : UserRec)
    (hfresh : s.inTx = false) (hcur : s.current = s.committed)
    (hfoundE : s.current.users.find? (fun v => decide (v.email = some em)) = some uE)
    (hbadE : check_validation_code c uE.validationCode = false)
    (hfoundI : s.current.users.find? (fun v => decide (v.id = uid)) = some uI)
    (hbadI : check_validation_code c uI.validationCode = false) :
    register_validation em c s =
      (s, Except.error { status := 422, detail := "Validation code is not valid" }) ∧
    recover_password_validation hashp em np rnp c s =
      (s, Except.error { status := 422, detail := "Validation code is not valid" }) ∧
    change_email_validation uid c s =
      (s, Except.error { status := 422, detail := "Validation code is not valid" }) := by
  refine ⟨?_, ?_, ?_⟩
  · have hbody : registerValidationBody em c (txBegin s) =
        (txBegin s, Except.error { status := 422, detail := "Validation code is not valid" }) := by
      simp [registerValidationBody, txBegin, hfoundE, hbadE]
    rw [show register_validation em c s = _ from
      transaction_context_fresh_error _ s _ _ hfresh hbody,
      rollback_fresh_eq s hfresh hcur]
  · have hbody : recoverPasswordValidationBody hashp em np rnp c (txBegin s) =
        (txBegin s, Except.error { status := 422, detail := "Validation code is not valid" }) := by
      simp [recoverPasswordValidationBody, txBegin, hfoundE, hbadE]
    rw [show recover_password_validation hashp em np rnp c s = _ from
      transaction_context_fresh_error _ s _ _ hfresh hbody,
      rollback_fresh_eq s hfresh hcur]
  · have hbody : changeEmailValidationBody uid c (txBegin s) =
        (txBegin s, Except.error { status := 422, detail := "Validation code is not valid" }) := by
      simp [changeEmailValidationBody, txBegin, hfoundI, hbadI]
    rw [show change_email_validation uid c s = _ from
      transaction_context_fresh_error _ s _ _ hfresh hbody,
      rollback_fresh_eq s hfresh hcur]

/-- C6 witness: all three endpoints, fed code 222222 against alice's
stored code 111111, return 422 and leave the session untouched. -/
theorem wrong_code_unchanged_witness :
    check_validation_code 222222 userAlice.validationCode = false ∧
    (register_validation "a@x.com" 222222 (freshSession dbAlice) =
       (freshSession dbAlice, Except.error { status := 422, detail := "Validation code is not valid" }) ∧
     recover_password_validation hashpSample "a@x.com" "npw" "npw" 222222 (freshSession dbAlice) =
       (freshSession dbAlice, Except.error { status := 422, detail := "Validation code is not valid" }) ∧
     change_email_validation 1 222222 (freshSession dbAlice) =
       (freshSession dbAlice, Except.error { status := 422, detail := "Validation code is not valid" })) :=
  ⟨rfl,
   wrong_code_unchanged_spec hashpSample "a@x.com" "npw" "npw" 1 222222
     (freshSession dbAlice) userAlice userAlice rfl rfl rfl rfl rfl rfl⟩

/-- C10: the email-change confirmation endpoint checks only the validation
code — no check that a new email is pending — so for any user holding a
matching code it sets the stored email to whatever new_email currently
holds (null when no change is pending) and clears both new_email and the
code. -/
theorem change_email_validation_spec (uid : Nat) (c : Int) (s : SessionState) (u : UserRec)
    (hfresh : s.inTx = false)
    (hfound : s.current.users.find? (fun v => decide (v.id = uid)) = some u)
    (hcode : u.validationCode = some c) :
    ∃ s1 u1,
      change_email_validation uid c s = (s1, Except.ok true) ∧
      s1.inTx = false ∧ s1.current = s1.committed ∧
      s1.committed.users = updateUserById s.current.users u.id
        (fun v => { v with email := v.newEmail, newEmail := none, validationCode := none }) ∧
      s1.committed.users.find? (fun v => decide (v.id = uid)) = some u1 ∧
      u1.email = u.newEmail ∧ u1.newEmail = none ∧ u1.validationCode = none := by
  have hp : ∀ v : UserRec,
      decide ((if v.id = u.id then { v with email := v.newEmail, newEmail := none, validationCode := none } else v).id = uid) =
        decide (v.id = uid) := by
    intro v
    by_cases h : v.id = u.id <;> simp [h]
  have hfind1 : (updateUserById s.current.users u.id
      (fun v => { v with email := v.newEmail, newEmail := none, validationCode := none })).find?
        (fun v => decide (v.id = uid)) =
      some { u with email := u.newEmail, newEmail := none, validationCode := none } :=
    find?_updateUserById s.current.users _ u hfound _ hp
  have hbody : changeEmailValidationBody uid c (txBegin s) =
      ({ s with inTx := true, current := { s.current with users := updateUserById s.current.users u.id (fun v => { v with email := v.newEmail, newEmail := none, validationCode := none }) } },
       Except.ok true) := by
    simp [changeEmailValidationBody, txBegin, hfound, check_validation_code, hcode]
  have hreg := transaction_context_fresh_ok _ s _ _ hfresh hbody
  exact ⟨_, { u with email := u.newEmail, newEmail := none, validationCode := none },
    hreg, rfl, rfl, rfl, hfind1, rfl, rfl, rfl⟩

/-- C10 witness: alice has a stored code but no pending new_email;
confirming the code nevertheless succeeds and sets her stored email to
null (new_email's current value) while clearing new_email and the code. -/
theorem change_email_validation_witness :
    (freshSession dbAlice).current.users.find? (fun v => decide (v.id = 1)) = some userAlice ∧
    userAlice.validationCode = some 111111 ∧
    userAlice.newEmail = none ∧
    (∃ s1 u1,
      change_email_validation 1 111111 (freshSession dbAlice) = (s1, Except.ok true) ∧
      s1.inTx = false ∧ s1.current = s1.committed ∧
      s1.committed.users = updateUserById (freshSession dbAlice).current.users userAlice.id
        (fun v => { v with email := v.newEmail, newEmail := none, validationCode := none }) ∧
      s1.committed.users.find? (fun v => decide (v.id = 1)) = some u1 ∧
      u1.email = userAlice.newEmail ∧ u1.newEmail = none ∧ u1.validationCode = none) :=
  ⟨rfl, rfl, rfl,
   change_email_validation_spec 1 111111 (freshSession dbAlice) userAlice rfl rfl rfl⟩

end MagicTales
